import Mathlib

/-!
Shallow embedding of the trading system in `Project_Algo_Leo`:
`SignalGenerator.py`, `OrderManagementSystem.py`, the risk-management part of
`Main.py`, and the listen-key keepalive of `AccountGateWay.py`.

Prices, quantities and PnL figures are modelled as rationals.  A pandas
series is a list ordered oldest first, `iloc[-1]` is the last element; a
rolling mean whose `min_periods` equals its window is `none` (NaN) until
enough data exists, and a comparison against NaN is false, as in pandas.
-/

namespace AlgoLeo

inductive Side
  | BUY
  | SELL
deriving DecidableEq

structure Candle where
  close : ℚ
  volume : ℚ
deriving DecidableEq

/-- Close prices of a candle window, oldest first. -/
def closesOf (cs : List Candle) : List ℚ := cs.map Candle.close

/-- Volumes of a candle window, oldest first. -/
def volumesOf (cs : List Candle) : List ℚ := cs.map Candle.volume

/-- Last `k` entries of a list (all of it when `k` exceeds the length). -/
def lastN (k : ℕ) (l : List ℚ) : List ℚ := l.drop (l.length - k)

/-- Value of `series.rolling(window=w).mean()` at the last index: `none`
(NaN) until `w` observations exist. -/
def smaLast (w : ℕ) (l : List ℚ) : Option ℚ :=
  if l.length < w then none else some ((lastN w l).sum / (w : ℚ))

/-- Per-period gains `delta.where(delta > 0, 0)` over `Close.diff()`: the
leading NaN of `diff` fails the `where` condition and becomes 0. -/
def gainsOf : List ℚ → List ℚ
  | [] => []
  | c :: rest => 0 :: List.zipWith (fun prev cur => max (cur - prev) 0) (c :: rest) rest

/-- Per-period losses `-delta.where(delta < 0, 0)` over `Close.diff()`. -/
def lossesOf : List ℚ → List ℚ
  | [] => []
  | c :: rest => 0 :: List.zipWith (fun prev cur => max (prev - cur) 0) (c :: rest) rest

/-- `SignalGenerator.calculate_rsi` with period 14: the rolling means use
`min_periods=1`, so at the last index they average the final `min 14 n`
entries.  `none` models the NaN of `rs = 0/0` when both averages vanish; a
zero average loss with positive average gain gives `rs = inf`, `rsi = 100`. -/
def calculate_rsi (closes : List ℚ) : Option ℚ :=
  let k := min 14 closes.length
  let avg_gain := (lastN k (gainsOf closes)).sum / (k : ℚ)
  let avg_loss := (lastN k (lossesOf closes)).sum / (k : ℚ)
  if avg_gain = 0 ∧ avg_loss = 0 then none
  else if avg_loss = 0 then some 100
  else some (100 - 100 / (1 + avg_gain / avg_loss))

/-- `SignalGenerator.signal_rsi`. -/
def signal_rsi (closes : List ℚ) : Option Side :=
  match calculate_rsi closes with
  | none => none
  | some rsi =>
    if rsi ≥ 75 then some Side.SELL
    else if rsi ≤ 25 then some Side.BUY
    else none

/-- `SignalGenerator.signal_simple_ma`: BUY when the last close is strictly
above the 20-period SMA, else SELL (with fewer than 20 candles the SMA is
NaN, the comparison is false and the branch still answers SELL). -/
def signal_simple_ma (closes : List ℚ) : Side :=
  match smaLast 20 closes, closes.getLast? with
  | some s, some c => if c > s then Side.BUY else Side.SELL
  | _, _ => Side.SELL

/-- `SignalGenerator.signal_vwap` as written: `calculate_vwap` fills the
column `VWAP_SMA5` with `Close.rolling(window=5).mean()`, so the comparison
is between the last close and the 5-period SMA of the closes. -/
def signal_vwap (closes : List ℚ) : Option Side :=
  match smaLast 5 closes, closes.getLast? with
  | some s, some c =>
    if c < s then some Side.BUY
    else if c > s then some Side.SELL
    else none
  | _, _ => none

/-- Combination logic of `SignalGenerator.evaluate_signals` once enough
candles exist: a truthy RSI signal is enqueued alone; otherwise the MA and
VWAP signals are combined.  `signal_simple_ma` never returns a falsy value,
so the trailing `elif vwap_signal` branch of the source is unreachable. -/
def combine (rsi : Option Side) (ma : Side) (vwap : Option Side) : List (Side × ℚ) :=
  match rsi with
  | some s => [(s, 1 / 10)]
  | none =>
    match vwap with
    | some v => if ma ≠ v then [(v, 1 / 10)] else [(ma, 2 / 10)]
    | none => [(ma, 1 / 10)]

/-- `SignalGenerator.evaluate_signals`: the items put on `order_queue`, in
order. -/
def evaluate_signals (cs : List Candle) : List (Side × ℚ) :=
  if cs.length < 60 then []
  else
    combine (signal_rsi (closesOf cs)) (signal_simple_ma (closesOf cs))
      (signal_vwap (closesOf cs))

/-- Running sums, as `Series.cumsum()`. -/
def cumsumFrom (acc : ℚ) : List ℚ → List ℚ
  | [] => []
  | x :: xs => (acc + x) :: cumsumFrom (acc + x) xs

/-- Cumulative sums of a series. -/
def cumsum (l : List ℚ) : List ℚ := cumsumFrom 0 l

/-- Cumulative VWAP series `(Close * Volume).cumsum() / Volume.cumsum()`,
the `VWAP` column `calculate_vwap` computes (and `signal_vwap` ignores). -/
def vwapSeries (cs : List Candle) : List ℚ :=
  List.zipWith (fun pv v => pv / v)
    (cumsum (List.zipWith (fun c v => c * v) (closesOf cs) (volumesOf cs)))
    (cumsum (volumesOf cs))

/-- Follows the words of the specification for the VWAP signal: compare the
last close with the 5-period smoothing of the cumulative VWAP series. -/
def signal_vwap_spec (cs : List Candle) : Option Side :=
  match smaLast 5 (vwapSeries cs), (closesOf cs).getLast? with
  | some s, some c =>
    if c < s then some Side.BUY
    else if c > s then some Side.SELL
    else none
  | _, _ => none

/-! Risk management (`Main.py`, `RiskManagement`). -/

structure DrawdownResult where
  max_pnl : ℚ
  liquidationFraction : Option ℚ
deriving DecidableEq

/-- Peak update of `apply_risk_management_open_position_and_portfolio`:
`if self.max_pnl <= realized_pnl: self.max_pnl = realized_pnl`. -/
def running_peak (max_pnl realized_pnl : ℚ) : ℚ :=
  if max_pnl ≤ realized_pnl then realized_pnl else max_pnl

/-- Drawdown section of one risk cycle (`Main.py` lines 205-211): update the
peak, then call `liquidate_position(liquid_ratio=0.5)` only when
`realized_pnl > 100` and `realized_pnl / max_pnl <= 1 - max_draw_down`. -/
def drawdown_step (max_pnl realized_pnl max_draw_down : ℚ) : DrawdownResult :=
  if realized_pnl > 100 ∧
      realized_pnl / running_peak max_pnl realized_pnl ≤ 1 - max_draw_down then
    ⟨running_peak max_pnl realized_pnl, some (1 / 2)⟩
  else ⟨running_peak max_pnl realized_pnl, none⟩

/-- Unrealized-profit computation of the risk cycle (`Main.py` lines
172-176). -/
def unrealized_pnl (position entryPrice bid ask : ℚ) : ℚ :=
  if position > 0 then position * (-entryPrice + bid)
  else position * (entryPrice - ask)

/-- Follows the words of the specification:
`U = P>0 ? P*(bid-E) : P*(E-ask)`. -/
def unrealized_pnl_spec (P E bid ask : ℚ) : ℚ :=
  if P > 0 then P * (bid - E) else P * (E - ask)

/-! Order management (`OrderManagementSystem.py`). -/

inductive OrdType
  | LIMIT
  | MARKET
deriving DecidableEq

inductive Tif
  | GTC
  | GTX
deriving DecidableEq

structure LimitOrderParams where
  side : Side
  otype : OrdType
  timeInForce : Tif
  price : ℚ
  quantity : ℚ
deriving DecidableEq

/-- Python `round(x, nd)` on the exact rational value.  Python rounds ties
to even; no input used below sits on a tie, where the two rules agree. -/
def roundTo (nd : ℕ) (x : ℚ) : ℚ := ((round (x * 10 ^ nd) : ℤ) : ℚ) / 10 ^ nd

/-- Fields `load_exchange_info` fills from the PRICE_FILTER and LOT_SIZE
filters, for a tick size of `10 ^ (-tickExp)` and a step size of
`10 ^ (-stepExp)`: the code stores `int(-log10(tickSize))` and likewise for
the step. -/
structure OmsConfig where
  tick_size : ℚ
  price_precision : ℕ
  quantity_precision : ℕ
deriving DecidableEq

/-- `OrderManagementSystem.load_exchange_info`, called once from
`__init__`. -/
def load_exchange_info (tickExp stepExp : ℕ) : OmsConfig :=
  { tick_size := 1 / 10 ^ tickExp
    price_precision := tickExp
    quantity_precision := stepExp }

/-- Order parameters built by `place_limit_order`: the configuration loaded
at startup is in scope through `self`, but the rounding uses the fixed
literals `round(price, 2)` and `round(quantity, 1)`. -/
def place_limit_order_params (cfg : OmsConfig) (side : Side) (price quantity : ℚ) :
    LimitOrderParams :=
  { side := side
    otype := OrdType.LIMIT
    timeInForce := Tif.GTC
    price := roundTo 2 price
    quantity := roundTo 1 quantity }

structure MarketOrderParams where
  side : Side
  otype : OrdType
  quantity : ℚ
deriving DecidableEq

/-- Order parameters built by `place_market_order`: side, type MARKET and
the quantity as given (no rounding, no time in force). -/
def place_market_order_params (side : Side) (quantity : ℚ) : MarketOrderParams :=
  { side := side
    otype := OrdType.MARKET
    quantity := quantity }

inductive ExchangeAction
  | cancelOrder (orderId : ℕ)
  | placeLimitOrder (p : LimitOrderParams)
  | placeMarketOrder (p : MarketOrderParams)
deriving DecidableEq

/-- `cancel_all_open_orders`: `fetchOk` says whether
`futures_get_open_orders` succeeds (its `except` path returns `False` with no
cancels); an empty list logs and returns `False`; otherwise every open order
receives a `futures_cancel_order` attempt and the call returns `True`. -/
def cancel_all_open_orders (fetchOk : Bool) (openOrders : List ℕ) :
    Bool × List ExchangeAction :=
  if fetchOk then
    if openOrders.isEmpty then (false, [])
    else (true, openOrders.map ExchangeAction.cancelOrder)
  else (false, [])

/-- `place_limit_order_with_cancellation`: both branches of its `if` place
the order, so the action trace is the cancel attempts followed by exactly one
placement. -/
def place_limit_order_with_cancellation (fetchOk : Bool) (openOrders : List ℕ)
    (cfg : OmsConfig) (side : Side) (price quantity : ℚ) : List ExchangeAction :=
  (cancel_all_open_orders fetchOk openOrders).2 ++
    [ExchangeAction.placeLimitOrder (place_limit_order_params cfg side price quantity)]

/-- `place_market_order_with_cancellation`: the same cancel-then-place shape
as the limit variant — both branches of its `if` submit one market order
after the cancel step (only the settling sleep differs, 1s versus 5s). -/
def place_market_order_with_cancellation (fetchOk : Bool) (openOrders : List ℕ)
    (side : Side) (quantity : ℚ) : List ExchangeAction :=
  (cancel_all_open_orders fetchOk openOrders).2 ++
    [ExchangeAction.placeMarketOrder (place_market_order_params side quantity)]

inductive OrderStatus
  | NEW
  | FILLED
  | CANCELED
  | REJECTED
  | EXPIRED
deriving DecidableEq

structure OrderRecord where
  status : OrderStatus
deriving DecidableEq

inductive LogEvent
  | infoLog
  | exceptionLog
deriving DecidableEq

/-- Result and log of `place_limit_order` for a given exchange reply: a
successful `futures_create_order` returns the order and logs at info level;
a rejection raises, is logged by `logging.exception`, and the method falls
off its end, returning `None`. -/
def place_limit_order_outcome (reply : Option OrderRecord) :
    Option OrderRecord × List LogEvent :=
  match reply with
  | some o => (some o, [LogEvent.infoLog])
  | none => (none, [LogEvent.exceptionLog])

inductive IterOutcome
  | fillBreak
  | retrySameSignal
  | caughtAndContinue
  | fatalHalt
deriving DecidableEq

/-- What one iteration of `trading_logic` (and of
`RiskManagement.liquidate_position`) does with a managed-order response: on a
`None` response the subscript `response['status']` raises, the enclosing
`try/except` logs and the loop continues; a FILLED status breaks out; any
other status loops again.  No branch terminates the process. -/
def response_status_step (resp : Option OrderRecord) : IterOutcome :=
  match resp with
  | none => IterOutcome.caughtAndContinue
  | some o =>
    if o.status = OrderStatus.FILLED then IterOutcome.fillBreak
    else IterOutcome.retrySameSignal

/-! Account gateway keepalive (`AccountGateWay.py`). -/

inductive AccountAction
  | keepaliveListenKey
deriving DecidableEq

/-- Exchange actions performed by `BinanceAccount._extend_listen_key`: the
body of the method is `pass`. -/
def extend_listen_key : List AccountAction := []

/-- Interval of the job `BinanceAccount.connect` registers:
`schedule.every(15).minutes.do(self._extend_listen_key)`. -/
def keepalive_interval_minutes : ℕ := 15

/-! Concrete candle windows used as inputs. -/

/-- Sixty candles: one heavy candle at close 100, then closes near 2 ending
at 3.  The cumulative VWAP stays far above the closes. -/
def vwapWindow : List Candle :=
  ⟨100, 100⟩ :: (List.replicate 55 ⟨2, 1⟩ ++ [⟨2, 1⟩, ⟨2, 1⟩, ⟨2, 1⟩, ⟨3, 1⟩])

/-- Sixty candles with strictly increasing closes, so RSI is 100. -/
def risingWindow : List Candle := (List.range 60).map fun i => ⟨(i : ℚ) + 1, 1⟩

/-- Sixty candles whose last moves are mixed: RSI lies strictly between 25
and 75, the last close sits below SMA20 and below SMA5. -/
def mixedWindow : List Candle :=
  List.replicate 55 ⟨20, 1⟩ ++ [⟨22, 1⟩, ⟨18, 1⟩, ⟨21, 1⟩, ⟨19, 1⟩, ⟨18, 1⟩]

/-! Theorems. -/

/-- Helper: the peak update equals a `max`. -/
theorem running_peak_eq_max (m r : ℚ) : running_peak m r = max m r := by
  unfold running_peak
  by_cases h : m ≤ r
  · rw [if_pos h, max_eq_right h]
  · rw [if_neg h, max_eq_left (le_of_not_le h)]

/-- Helper: a truthy RSI signal is enqueued alone at the base quantity. -/
theorem combine_some (s ma : Side) (vw : Option Side) :
    combine (some s) ma vw = [(s, 1 / 10)] := rfl

/-- Helper: disagreement between the MA and VWAP signals follows VWAP. -/
theorem combine_disagree (ma v : Side) (h : ma ≠ v) :
    combine none ma (some v) = [(v, 1 / 10)] := by
  show (if ma ≠ v then [(v, 1 / 10)] else [(ma, 2 / 10)]) = [(v, 1 / 10)]
  rw [if_pos h]

/-- Helper: agreement between the MA and VWAP signals doubles the quantity. -/
theorem combine_agree (v : Side) : combine none v (some v) = [(v, 2 / 10)] := by
  show (if v ≠ v then [(v, 1 / 10)] else [(v, 2 / 10)]) = [(v, 2 / 10)]
  rw [if_neg (not_not_intro rfl)]

/-- Helper: with no VWAP signal the MA signal is enqueued alone. -/
theorem combine_ma_only (ma : Side) : combine none ma none = [(ma, 1 / 10)] := rfl

/-- Helper: on sixty or more candles the evaluation reduces to `combine`. -/
theorem evaluate_signals_long (cs : List Candle) (hlen : ¬cs.length < 60) :
    evaluate_signals cs =
      combine (signal_rsi (closesOf cs)) (signal_simple_ma (closesOf cs))
        (signal_vwap (closesOf cs)) := by
  unfold evaluate_signals
  rw [if_neg hlen]

/-- Helper: the RSI signal as a function of the computed RSI value. -/
theorem signal_rsi_of_calc (closes : List ℚ) (r : ℚ)
    (h : calculate_rsi closes = some r) :
    signal_rsi closes =
      if r ≥ 75 then some Side.SELL
      else if r ≤ 25 then some Side.BUY
      else none := by
  unfold signal_rsi
  rw [h]

/-- Helper: a successful fetch over a nonempty order list cancels each
order and reports `True`. -/
theorem cancel_all_nonempty (openOrders : List ℕ) (h : openOrders.isEmpty = false) :
    cancel_all_open_orders true openOrders =
      (true, openOrders.map ExchangeAction.cancelOrder) := by
  unfold cancel_all_open_orders
  rw [h]
  rfl

/-- C1 (counterexample): with peak realized PnL 200, max-drawdown-fraction
0.4 and current realized PnL exactly 100, one risk cycle does not liquidate:
the code guards the drawdown check with `realized_pnl > 100`, and 100 is not
greater than 100, although 100 / 200 = 0.5 is at most 0.6. -/
theorem drawdown_not_triggered_at_claimed_example :
    drawdown_step 200 100 (2 / 5) = ⟨200, none⟩ := by decide!

/-- C1 (amended): the risk controller tracks the running peak of realized
PnL, and once current realized PnL strictly exceeds the activation floor of
100, one cycle triggers the 50% drawdown liquidation whenever realized PnL
over peak is at most `1 - maxDrawdownFraction`. -/
theorem drawdown_liquidates_half_above_floor (m r d : ℚ) (h1 : 100 < r)
    (h2 : r / max m r ≤ 1 - d) :
    drawdown_step m r d = ⟨max m r, some (1 / 2)⟩ := by
  unfold drawdown_step
  rw [running_peak_eq_max]
  rw [if_pos ⟨h1, h2⟩]

/-- C1 (witness): peak 200, current realized PnL 101, fraction 0.4 triggers
the 50% liquidation. -/
theorem drawdown_liquidates_half_above_floor_witness :
    drawdown_step 200 101 (2 / 5) = ⟨max 200 101, some (1 / 2)⟩ :=
  drawdown_liquidates_half_above_floor 200 101 (2 / 5) (by decide!) (by decide!)

/-- C2: at `vwapWindow` the code answers SELL while the signal prescribed by
the specification (compare against the 5-period smoothing of the cumulative
VWAP series) answers BUY: `calculate_vwap` fills `VWAP_SMA5` with
`Close.rolling(5).mean()` and leaves the `VWAP` column unused. -/
theorem vwap_signal_smooths_close_not_vwap :
    signal_vwap (closesOf vwapWindow) = some Side.SELL ∧
    signal_vwap_spec vwapWindow = some Side.BUY := by decide!

/-- C3 (counterexample): with a tick size of 0.001 loaded from the metadata,
a requested price of 100.124 is placed as 100.12, not at the tick
precision. -/
theorem limit_order_price_ignores_tick_precision :
    (place_limit_order_params (load_exchange_info 3 1) Side.BUY (25031 / 250)
        (1 / 10)).price ≠
      roundTo (load_exchange_info 3 1).price_precision (25031 / 250) := by decide!

/-- C3 (amended): every limit order is a GTC LIMIT order whose price is
rounded to two decimal places and whose quantity is rounded to one decimal
place — fixed literals, identical under any metadata loaded at startup. -/
theorem limit_order_gtc_fixed_precision (cfg cfg2 : OmsConfig) (side : Side)
    (price quantity : ℚ) :
    place_limit_order_params cfg side price quantity =
        place_limit_order_params cfg2 side price quantity ∧
      (place_limit_order_params cfg side price quantity).otype = OrdType.LIMIT ∧
      (place_limit_order_params cfg side price quantity).timeInForce = Tif.GTC ∧
      (place_limit_order_params cfg side price quantity).price = roundTo 2 price ∧
      (place_limit_order_params cfg side price quantity).quantity = roundTo 1 quantity :=
  ⟨rfl, rfl, rfl, rfl, rfl⟩

/-- C4: the keepalive job registered at a 15-minute interval performs no
exchange action at all — the body of `_extend_listen_key` is `pass` (and no
caller ever drives the `schedule` queue), so the listen key is never
extended. -/
theorem keepalive_job_does_nothing :
    extend_listen_key = ([] : List AccountAction) ∧ keepalive_interval_minutes = 15 :=
  ⟨rfl, rfl⟩

/-- C5 (counterexample): with zero open orders the cancel step returns
`False`, the very indicator its exception path returns for a failure, not a
distinct success. -/
theorem zero_open_orders_returns_failure_indicator :
    (cancel_all_open_orders true []).1 = false ∧
    (cancel_all_open_orders true []).1 = (cancel_all_open_orders false [7]).1 := by
  decide

/-- C5 (amended): when the open-orders fetch succeeds, each managed
placement — the limit variant and the market variant alike — emits exactly
one new order, placed after a cancel attempt for every prior open order (the
cancel segment holds nothing but cancel attempts); the zero-open-orders case
returns the same `False` indicator as a failed cancellation, and the
placement proceeds in either branch. -/
theorem cancel_attempts_precede_placement (openOrders : List ℕ) (cfg : OmsConfig)
    (side : Side) (price quantity : ℚ) :
    place_limit_order_with_cancellation true openOrders cfg side price quantity =
        (cancel_all_open_orders true openOrders).2 ++
          [ExchangeAction.placeLimitOrder
            (place_limit_order_params cfg side price quantity)] ∧
      place_market_order_with_cancellation true openOrders side quantity =
        (cancel_all_open_orders true openOrders).2 ++
          [ExchangeAction.placeMarketOrder
            (place_market_order_params side quantity)] ∧
      (∀ a ∈ (cancel_all_open_orders true openOrders).2, ∃ oid,
        a = ExchangeAction.cancelOrder oid) ∧
      (∀ oid ∈ openOrders,
        ExchangeAction.cancelOrder oid ∈ (cancel_all_open_orders true openOrders).2) := by
  refine ⟨rfl, rfl, ?_, ?_⟩
  · intro a ha
    cases openOrders with
    | nil => simp [cancel_all_open_orders] at ha
    | cons x xs =>
      rw [cancel_all_nonempty (x :: xs) rfl, List.mem_map] at ha
      obtain ⟨oid, _, rfl⟩ := ha
      exact ⟨oid, rfl⟩
  · intro oid hm
    cases openOrders with
    | nil => cases hm
    | cons x xs =>
      rw [cancel_all_nonempty (x :: xs) rfl]
      exact List.mem_map_of_mem _ hm

/-- C6: a rejected place request is logged at exception level and yields
`None`, which is no FILLED order record; the supervisor loop and the risk
liquidation loop both turn that response into a caught-and-continue step,
never a halt; a failed cancel fetch likewise returns the failure indicator
while the subsequent placement still happens. -/
theorem order_rejection_logged_and_nonfatal :
    place_limit_order_outcome none = (none, [LogEvent.exceptionLog]) ∧
    (∀ o : OrderRecord, (place_limit_order_outcome none).1 ≠ some o) ∧
    response_status_step (place_limit_order_outcome none).1 =
      IterOutcome.caughtAndContinue ∧
    IterOutcome.caughtAndContinue ≠ IterOutcome.fatalHalt ∧
    (cancel_all_open_orders false [7]).1 = false ∧
    place_limit_order_with_cancellation false [7] (load_exchange_info 2 1) Side.BUY
        3000 (1 / 10) =
      [ExchangeAction.placeLimitOrder
        (place_limit_order_params (load_exchange_info 2 1) Side.BUY 3000 (1 / 10))] := by
  refine ⟨rfl, ?_, rfl, by decide, rfl, rfl⟩
  intro o h
  exact Option.noConfusion h

/-- C7: for a window of at least 60 candles, an RSI of at least 75 makes the
generated signal SELL alone at the base quantity and an RSI of at most 25
makes it BUY alone at the base quantity, whatever the MA and VWAP signals
are; an RSI strictly between 25 and 75 produces no RSI signal. -/
theorem rsi_signal_absolute_priority (cs : List Candle) (h : 60 ≤ cs.length)
    (r : ℚ) (hr : calculate_rsi (closesOf cs) = some r) :
    (75 ≤ r → evaluate_signals cs = [(Side.SELL, 1 / 10)]) ∧
    (r ≤ 25 → evaluate_signals cs = [(Side.BUY, 1 / 10)]) ∧
    (25 < r → r < 75 → signal_rsi (closesOf cs) = none) := by
  have hlen : ¬cs.length < 60 := by omega
  have hsig := signal_rsi_of_calc (closesOf cs) r hr
  refine ⟨?_, ?_, ?_⟩
  · intro h75
    have hs : signal_rsi (closesOf cs) = some Side.SELL := by
      rw [hsig, if_pos (show r ≥ 75 from h75)]
    rw [evaluate_signals_long cs hlen, hs, combine_some]
  · intro h25
    have hnot : ¬r ≥ 75 := by
      intro hc
      linarith
    have hs : signal_rsi (closesOf cs) = some Side.BUY := by
      rw [hsig, if_neg hnot, if_pos h25]
    rw [evaluate_signals_long cs hlen, hs, combine_some]
  · intro hlo hhi
    have h1 : ¬r ≥ 75 := by
      intro hc
      linarith
    have h2 : ¬r ≤ 25 := by
      intro hc
      linarith
    rw [hsig, if_neg h1, if_neg h2]

/-- C7 (witness): sixty strictly increasing closes give RSI 100 and the lone
signal (SELL, 0.1). -/
theorem rsi_signal_absolute_priority_witness :
    evaluate_signals risingWindow = [(Side.SELL, 1 / 10)] :=
  (rsi_signal_absolute_priority risingWindow (by decide) 100 (by decide!)).1
    (by decide!)

/-- C8: with the RSI signal silent on a window of at least 60 candles, a
defined VWAP signal that disagrees with the (always defined) SMA20 signal
wins at the base quantity, agreement doubles the quantity, and with the VWAP
signal undefined the SMA20 signal alone is emitted at the base quantity. -/
theorem signal_combination_rule (cs : List Candle) (h : 60 ≤ cs.length)
    (hrsi : signal_rsi (closesOf cs) = none) :
    (∀ v, signal_vwap (closesOf cs) = some v →
      (signal_simple_ma (closesOf cs) ≠ v → evaluate_signals cs = [(v, 1 / 10)]) ∧
      (signal_simple_ma (closesOf cs) = v → evaluate_signals cs = [(v, 2 / 10)])) ∧
    (signal_vwap (closesOf cs) = none →
      evaluate_signals cs = [(signal_simple_ma (closesOf cs), 1 / 10)]) := by
  have hlen : ¬cs.length < 60 := by omega
  constructor
  · intro v hv
    constructor
    · intro hne
      rw [evaluate_signals_long cs hlen, hrsi, hv, combine_disagree _ _ hne]
    · intro heq
      rw [evaluate_signals_long cs hlen, hrsi, hv, heq, combine_agree]
  · intro hnone
    rw [evaluate_signals_long cs hlen, hrsi, hnone, combine_ma_only]

/-- C8 (witness): at `mixedWindow` the RSI is silent, SMA20 says SELL, VWAP
says BUY, and the emitted signal is (BUY, 0.1). -/
theorem signal_combination_rule_witness :
    evaluate_signals mixedWindow = [(Side.BUY, 1 / 10)] :=
  ((signal_combination_rule mixedWindow (by decide) (by decide!)).1 Side.BUY
    (by decide!)).1 (by decide!)

/-- C9: the unrealized PnL of the risk cycle equals the specified
`P > 0 ? P * (bid - E) : P * (E - ask)` for every position, entry price and
book. -/
theorem unrealized_pnl_matches_spec (P E bid ask : ℚ) :
    unrealized_pnl P E bid ask = unrealized_pnl_spec P E bid ask := by
  unfold unrealized_pnl unrealized_pnl_spec
  split_ifs with h
  · ring
  · rfl

/-- C10: every enqueued item is a side with quantity 0.1 or 0.2, at most one
item is enqueued per evaluation, and quantity 0.2 occurs only when the RSI
signal is silent and the VWAP signal agrees with the SMA20 signal. -/
theorem enqueued_signal_shape (cs : List Candle) :
    (evaluate_signals cs).length ≤ 1 ∧
    ∀ p ∈ evaluate_signals cs,
      (p.1 = Side.BUY ∨ p.1 = Side.SELL) ∧
      (p.2 = 1 / 10 ∨ p.2 = 2 / 10) ∧
      (p.2 = 2 / 10 →
        signal_rsi (closesOf cs) = none ∧
        signal_vwap (closesOf cs) = some (signal_simple_ma (closesOf cs))) := by
  have hshape :
      evaluate_signals cs = [] ∨
      (∃ s, evaluate_signals cs = [(s, 1 / 10)]) ∨
      (evaluate_signals cs = [(signal_simple_ma (closesOf cs), 2 / 10)] ∧
        signal_rsi (closesOf cs) = none ∧
        signal_vwap (closesOf cs) = some (signal_simple_ma (closesOf cs))) := by
    by_cases hlen : cs.length < 60
    · refine Or.inl ?_
      unfold evaluate_signals
      rw [if_pos hlen]
    · rw [evaluate_signals_long cs hlen]
      cases hrsi : signal_rsi (closesOf cs) with
      | some s => exact Or.inr (Or.inl ⟨s, combine_some _ _ _⟩)
      | none =>
        cases hv : signal_vwap (closesOf cs) with
        | some v =>
          by_cases hne : signal_simple_ma (closesOf cs) ≠ v
          · exact Or.inr (Or.inl ⟨v, combine_disagree _ _ hne⟩)
          · push_neg at hne
            refine Or.inr (Or.inr ⟨?_, rfl, ?_⟩)
            · rw [hne]
              exact combine_agree v
            · rw [hne]
        | none => exact Or.inr (Or.inl ⟨_, combine_ma_only _⟩)
  rcases hshape with h0 | ⟨s, h1⟩ | ⟨h2, hrn, hvm⟩
  · rw [h0]
    refine ⟨by simp, ?_⟩
    intro p hp
    cases hp
  · rw [h1]
    refine ⟨by simp, ?_⟩
    intro p hp
    have hp2 : p = (s, 1 / 10) := by simpa using hp
    subst hp2
    refine ⟨?_, Or.inl rfl, ?_⟩
    · cases s
      · exact Or.inl rfl
      · exact Or.inr rfl
    · intro habs
      exact absurd habs (by norm_num)
  · rw [h2]
    refine ⟨by simp, ?_⟩
    intro p hp
    have hp2 : p = (signal_simple_ma (closesOf cs), 2 / 10) := by simpa using hp
    subst hp2
    refine ⟨?_, Or.inr rfl, fun _ => ⟨hrn, hvm⟩⟩
    cases signal_simple_ma (closesOf cs)
    · exact Or.inl rfl
    · exact Or.inr rfl

end AlgoLeo
